import Mathlib

set_option linter.unusedVariables false

/-!
A shallow embedding of the per-server view lifecycle manager
(src/main/MattermostView.js) and of the process-wide navigation policy
installed by handleAppWebContentsCreated in the main-process entry file,
together with theorems settling the specification claims about them.

Timers are modelled explicitly: setTimeout appends a record to a list of
pending timers, clearTimeout filters it out by identifier, and a pending
timer may fire at any later point unless it has been cleared.  The wall
clock is a state field read at each event (Date.now()).  Messages sent to
the renderer (WindowManager.sendToRenderer) and to the application state
(appState.updateMentions / appState.updateUnreads) are accumulated in
lists, as are the unread probes sent to the content surface (IS_UNREAD).
-/

/-- Load status constant READY from MattermostView.js. -/
def READY : Int := 1

/-- Load status constant LOADING from MattermostView.js. -/
def LOADING : Int := 0

/-- Load status constant ERROR from MattermostView.js. -/
def ERROR : Int := -1

/-- Modelled from the spec: the module common/utils/constants is not among
the supplied sources.  The spec scenario fixes the configured maximum
number of retries at 3 ("fails 3 times (configured max)"). -/
def MAX_SERVER_RETRIES : Int := 3

/-- Modelled from the spec: the module common/utils/constants is not among
the supplied sources.  The spec only requires the retry interval to be one
fixed constant ("fixed back-off interval (no exponential growth)"); no
claim depends on its numeric value. -/
def RELOAD_INTERVAL : Nat := 10000

/-- A configured server: identity used by every per-server view. -/
structure Server where
  name : String
  url : String
deriving DecidableEq, Repr

/-- Messages sent to the renderer through WindowManager.sendToRenderer. -/
inductive RendererMsg where
  | loadRetry (serverName : String) (nextAttempt : Nat) (err : String) (url : String)
  | loadFailed (serverName : String) (err : String) (url : String)
  | loadSuccess (serverName : String)
deriving DecidableEq, Repr

/-- Messages published to the application state (appState module). -/
inductive AppStateMsg where
  | updateMentions (serverName : String) (mentions : Nat) (unreads : Option Bool)
  | updateUnreads (serverName : String) (unreads : Bool)
deriving DecidableEq, Repr

/-- A pending retry timer created by setTimeout in loadRetry: its handle,
the URL captured by the retry closure, and the time it is due. -/
structure RetryTimer where
  id : Nat
  loadURL : String
  due : Nat
deriving DecidableEq, Repr

/-- The state of one MattermostView instance together with its observable
effects.  Field names follow the constructor of MattermostView.js.
viewAlive stands for the truthiness of this.view: the field is assigned a
BrowserView once in the constructor and never reassigned, so it stays
true even after destroy(). -/
structure MattermostView where
  server : Option Server
  viewAlive : Bool
  isVisible : Bool
  retryLoad : Option Nat
  maxRetries : Int
  status : Int
  usesAsteriskForUnreads : Option Bool
  faviconMemoize : List (String × Bool)
  currentFavicon : Option String
  wired : Bool
  pendingTimers : List RetryTimer
  nextTimerId : Nat
  now : Nat
  renderer : List RendererMsg
  appMsgs : List AppStateMsg
  probes : List (Option String)
deriving DecidableEq, Repr

/-- JavaScript truthiness of the usesAsteriskForUnreads field, which is
null, or true once assigned. -/
def truthy : Option Bool → Bool
  | some b => b
  | none => false

/-- this.server.name.  The title and favicon events only arrive from a
live webContents, whose view still holds its server, so the none case is
unreachable for those handlers; it is mapped to the empty string. -/
def MattermostView.serverName (s : MattermostView) : String :=
  match s.server with
  | some srv => srv.name
  | none => ""

/-- The constructor of MattermostView (fields relevant to the claims). -/
def mkView (server : Server) : MattermostView :=
  { server := some server
    viewAlive := true
    isVisible := false
    retryLoad := none
    maxRetries := MAX_SERVER_RETRIES
    status := LOADING
    usesAsteriskForUnreads := none
    faviconMemoize := []
    currentFavicon := none
    wired := false
    pendingTimers := []
    nextTimerId := 0
    now := 0
    renderer := []
    appMsgs := []
    probes := [] }

/-- Longest run of leading decimal digits, with the rest of the input:
the backtracking-free reading of the regular-expression group (\d+)
followed by a non-digit. -/
def takeDigits : List Char → List Char × List Char
  | [] => ([], [])
  | c :: cs =>
    if c.isDigit then
      let r := takeDigits cs
      (c :: r.1, r.2)
    else ([], c :: cs)

/-- First match of the optional mention-count group of the title regular
expression of MattermostView.js, group 2: an opening parenthesis, one or
more digits, a closing parenthesis and a space, at the start of the
input.  Returns the digit group and the remainder. -/
def matchMentionGroup (cs : List Char) : Option (List Char × List Char) :=
  match cs with
  | c :: rest =>
    if c = '(' then
      let r := takeDigits rest
      if r.1 = [] then none
      else
        match r.2 with
        | c2 :: c3 :: r2 => if c2 = ')' ∧ c3 = ' ' then some (r.1, r2) else none
        | _ => none
    else none
  | [] => none

/-- Numeric value of a digit group, as parseInt(digits, 10). -/
def natOfDigits (ds : List Char) : Nat :=
  ds.foldl (fun n c => 10 * n + (c.toNat - 48)) 0

/-- Groups 2 and 3 of the first match that title.matchAll(titleParser)
yields for the regular expression (\((\d+)\) )?(\*)? of
MattermostView.js: the pattern can match the empty string, so the first
match is always at position 0; group 2 is the mention digit group when
the leading marker is present, and group 3 records whether an asterisk
follows immediately after it. -/
def titleGroups (title : String) : Option (List Char) × Bool :=
  match matchMentionGroup title.data with
  | some (ds, rest) => (some ds, rest.head? == some '*')
  | none => (none, title.data.head? == some '*')

/-- faviconMemoize.has / faviconMemoize.get combined: Map lookup, where
an absent key (including the undefined index of an empty favicon array)
misses. -/
def lookupMemo (m : List (String × Bool)) (k : Option String) : Option Bool :=
  match k with
  | none => none
  | some f => (m.find? (fun q => q.1 == f)).map (fun q => q.2)

/-- faviconMemoize.set: update the entry in place when the key is
present, append it otherwise. -/
def setMemo : List (String × Bool) → String → Bool → List (String × Bool)
  | [], k, v => [(k, v)]
  | q :: rest, k, v => if q.1 = k then (k, v) :: rest else q :: setMemo rest k v

/-- handleTitleUpdate of MattermostView.js: take the first match of the
title regular expression; when the asterisk group is defined, record that
this server uses asterisks for unreads; publish the unread flag only when
that mode is established, and the mention count parsed from the numeric
group, 0 when absent. -/
def MattermostView.handleTitleUpdate (s : MattermostView) (title : String) : MattermostView :=
  let r := titleGroups title
  let s1 := if r.2 then { s with usesAsteriskForUnreads := some true } else s
  let unreads : Option Bool :=
    if truthy s1.usesAsteriskForUnreads then some r.2 else none
  let mentions : Nat :=
    match r.1 with
    | some ds => natOfDigits ds
    | none => 0
  { s1 with appMsgs := s1.appMsgs ++ [AppStateMsg.updateMentions s1.serverName mentions unreads] }

/-- findUnreadState of MattermostView.js: send an IS_UNREAD probe for the
given favicon to the content surface. -/
def MattermostView.findUnreadState (s : MattermostView) (favicon : Option String) : MattermostView :=
  { s with probes := s.probes ++ [favicon] }

/-- handleFaviconUpdate of MattermostView.js: ignored once the asterisk
mode is established; otherwise record the first favicon of the event as
current, answer from the memo when it is known, and probe the content
surface when it is not. -/
def MattermostView.handleFaviconUpdate (s : MattermostView) (favicons : List String) : MattermostView :=
  if truthy s.usesAsteriskForUnreads then s
  else
    let fav0 := favicons.head?
    let s1 := { s with currentFavicon := fav0 }
    match lookupMemo s1.faviconMemoize fav0 with
    | some v => { s1 with appMsgs := s1.appMsgs ++ [AppStateMsg.updateUnreads s1.serverName v] }
    | none => s1.findUnreadState fav0

/-- handleFaviconIsUnread of MattermostView.js, the UNREAD_RESULT ipc
handler: only when the view still holds its server and the event is
addressed to it, memoize a truthy favicon (the empty string is falsy in
JavaScript), and publish the result when the favicon is null or still
the current one. -/
def MattermostView.handleFaviconIsUnread (s : MattermostView) (favicon : Option String)
    (serverName : String) (result : Bool) : MattermostView :=
  match s.server with
  | some srv =>
    if serverName = srv.name then
      let s1 :=
        match favicon with
        | some f => if f ≠ "" then { s with faviconMemoize := setMemo s.faviconMemoize f result } else s
        | none => s
      if favicon = none ∨ favicon = s1.currentFavicon then
        { s1 with appMsgs := s1.appMsgs ++ [AppStateMsg.updateUnreads serverName result] }
      else s1
    else s
  | none => s

/-- loadRetry of MattermostView.js: schedule one retry with setTimeout
after RELOAD_INTERVAL, store its handle, and send one LOAD_RETRY message
carrying the next-attempt timestamp Date.now() + RELOAD_INTERVAL. -/
def MattermostView.loadRetry (s : MattermostView) (loadURL : String) (err : String) : MattermostView :=
  { s with
    retryLoad := some s.nextTimerId
    pendingTimers := s.pendingTimers ++ [{ id := s.nextTimerId, loadURL := loadURL, due := s.now + RELOAD_INTERVAL }]
    nextTimerId := s.nextTimerId + 1
    renderer := s.renderer ++ [RendererMsg.loadRetry s.serverName (s.now + RELOAD_INTERVAL) err loadURL] }

/-- loadSuccess of MattermostView.js (the resolution of the load
promise): send LOAD_SUCCESS, reset the retry counter to its maximum, on
the first success wire the title and favicon observers, process the
current page title and send the initial null-favicon probe, and become
READY. -/
def MattermostView.loadSuccess (s : MattermostView) (loadURL : String) (title : String) : MattermostView :=
  let s1 := { s with renderer := s.renderer ++ [RendererMsg.loadSuccess s.serverName]
                     maxRetries := MAX_SERVER_RETRIES }
  let s2 :=
    if s1.status = LOADING then
      (({ s1 with wired := true }).handleTitleUpdate title).findUnreadState none
    else s1
  { s2 with status := READY }

/-- The synchronous body of load of MattermostView.js: the stored retry
handle is set to null; no clearTimeout is issued, and the retry counter
is not touched.  The outcome of the issued request is delivered later by
loadAttemptFailed or loadSuccess. -/
def MattermostView.load (s : MattermostView) (someURL : Option String) : MattermostView :=
  { s with retryLoad := none }

/-- The catch branch of load of MattermostView.js: the load promise
rejected, so a retry is scheduled unconditionally. -/
def MattermostView.loadAttemptFailed (s : MattermostView) (loadURL : String) (err : String) : MattermostView :=
  s.loadRetry loadURL err

/-- Outcome of the load request issued by the retry closure. -/
inductive LoadOutcome where
  | ok (title : String)
  | failed (err : String)
deriving DecidableEq, Repr

/-- The closure returned by retry of MattermostView.js, run when a retry
timer fires: bail out when this.view is falsy, otherwise reload; on
success run loadSuccess, on failure post-decrement the retry counter,
scheduling another retry when the old value was positive and otherwise
sending the terminal LOAD_FAILED and entering the ERROR status. -/
def MattermostView.retry (s : MattermostView) (loadURL : String) (outcome : LoadOutcome) : MattermostView :=
  if s.viewAlive = false then s
  else
    match outcome with
    | LoadOutcome.ok title => s.loadSuccess loadURL title
    | LoadOutcome.failed err =>
      if s.maxRetries > 0 then
        ({ s with maxRetries := s.maxRetries - 1 }).loadRetry loadURL err
      else
        { s with maxRetries := s.maxRetries - 1
                 renderer := s.renderer ++ [RendererMsg.loadFailed s.serverName err loadURL]
                 status := ERROR }

/-- A pending setTimeout fires: it removes itself from the pending set
and runs the retry closure with the URL it captured.  A cleared timer
(absent identifier) never fires. -/
def MattermostView.fireRetryTimer (s : MattermostView) (id : Nat) (outcome : LoadOutcome) : MattermostView :=
  match s.pendingTimers.find? (fun t => t.id == id) with
  | none => s
  | some t =>
    ({ s with pendingTimers := s.pendingTimers.filter (fun t2 => t2.id != id) }).retry t.loadURL outcome

/-- clearTimeout on a stored handle: remove the timer; a null handle is a
no-op. -/
def MattermostView.clearTimer (s : MattermostView) (id : Option Nat) : MattermostView :=
  match id with
  | none => s
  | some i => { s with pendingTimers := s.pendingTimers.filter (fun t => t.id != i) }

/-- destroy of MattermostView.js: clear the pending retry timer if its
handle is stored, detach and destroy the view (this.view itself stays a
truthy reference), null the window and server references, reset
visibility, and clear the timer again (idempotent). -/
def MattermostView.destroy (s : MattermostView) : MattermostView :=
  let s1 := s.clearTimer s.retryLoad
  let s2 := { s1 with server := none, isVisible := false }
  s2.clearTimer s2.retryLoad

/-- Every event a MattermostView reacts to, for whole-trace statements. -/
inductive MVEvent where
  | load (someURL : Option String)
  | loadFailedEv (loadURL err : String)
  | loadSucceededEv (loadURL title : String)
  | retryFired (id : Nat) (outcome : LoadOutcome)
  | titleUpdated (title : String)
  | faviconUpdated (favicons : List String)
  | unreadResult (favicon : Option String) (serverName : String) (result : Bool)
  | destroyed

/-- Dispatch one event to its handler. -/
def MVEvent.apply : MVEvent → MattermostView → MattermostView
  | .load u, s => s.load u
  | .loadFailedEv url err, s => s.loadAttemptFailed url err
  | .loadSucceededEv url title, s => s.loadSuccess url title
  | .retryFired id outcome, s => s.fireRetryTimer id outcome
  | .titleUpdated t, s => s.handleTitleUpdate t
  | .faviconUpdated fs, s => s.handleFaviconUpdate fs
  | .unreadResult f n r, s => s.handleFaviconIsUnread f n r
  | .destroyed, s => s.destroy

/-- Run a list of events in order. -/
def applyEvents (es : List MVEvent) (s : MattermostView) : MattermostView :=
  es.foldl (fun t e => e.apply t) s

/-- Number of terminal LOAD_FAILED messages in a renderer stream. -/
def countLoadFailed (msgs : List RendererMsg) : Nat :=
  msgs.countP (fun m =>
    match m with
    | RendererMsg.loadFailed _ _ _ => true
    | _ => false)

/-- The most recently published application-state message. -/
def lastAppMsg (s : MattermostView) : Option AppStateMsg :=
  s.appMsgs.reverse.head?

/-- Mention count of the most recently published updateMentions message. -/
def lastMentions (s : MattermostView) : Option Nat :=
  match lastAppMsg s with
  | some (AppStateMsg.updateMentions _ m _) => some m
  | _ => none

/-- A parsed URL: the fields of the parse result that the navigation
policy reads (protocol includes the trailing colon, as in the URL api). -/
structure URLRec where
  protocol : String
  host : String
  pathname : String
deriving DecidableEq, Repr

/-- The interface of common/utils/url as consumed by the navigation
handlers.  That module is not among the supplied sources, so the handlers
are parametric in it; the classifier functions receive the parse result,
possibly null. -/
structure UrlUtils where
  parseURL : String → Option URLRec
  getServer : Option URLRec → List Server → Option Server
  isTeamUrl : String → Option URLRec → Bool → Bool
  isAdminUrl : String → Option URLRec → Bool
  isPluginUrl : String → Option URLRec → Bool
  isManagedResource : String → Option URLRec → Bool
  isValidURI : String → Bool
  isCustomLoginURL : Option URLRec → Option Server → List Server → Bool
  isTrustedURL : Option URLRec → List Server → Bool

/-- The process-wide popup BrowserWindow: its identity (so that reuse and
recreation are distinguishable), the URL it currently shows, the closed
property the handler reads, and whether show() has run. -/
structure PopupWindow where
  id : Nat
  url : String
  closed : Bool
  shown : Bool
deriving DecidableEq, Repr

/-- Process-wide navigation state: the popup singleton reference and the
observable effects (shell.openExternal calls and protocol-confirmation
dialogs). createdCount counts BrowserWindow constructions. -/
structure NavState where
  popupWindow : Option PopupWindow
  nextPopupId : Nat
  createdCount : Nat
  externalOpens : List String
  protocolDialogs : List (String × String)
deriving DecidableEq, Repr

/-- The initial navigation state: no popup yet. -/
def navInit : NavState :=
  { popupWindow := none, nextPopupId := 0, createdCount := 0
    externalOpens := [], protocolDialogs := [] }

/-- Prefix test on the character lists of strings (String.startsWith
restated in a kernel-reducible form). -/
def strStarts (s : String) (pre : String) : Bool :=
  pre.data.isPrefixOf s.data

/-- Drop the first n characters of a string. -/
def strDrop (s : String) (n : Nat) : String :=
  String.mk (s.data.drop n)

/-- Recursion core for the public-download path pattern, with fuel. -/
def publicFilesLoop : Nat → String → Bool
  | 0, _ => false
  | n + 1, p =>
    if strStarts p "/files/" then true
    else if strStarts p "/api/v3/public" then publicFilesLoop n (strDrop p 14)
    else if strStarts p "/api/v4/public" then publicFilesLoop n (strDrop p 14)
    else false

/-- The public-download pathname pattern of the new-window handler:
zero or more repetitions of /api/v3/public or /api/v4/public followed by
/files/ at the start of the pathname. -/
def isPublicFilesPath (p : String) : Bool :=
  publicFilesLoop (p.length + 1) p

/-- The help pathname pattern of the new-window handler: /help/ at the
start of the pathname. -/
def isHelpPath (p : String) : Bool :=
  strStarts p "/help/"

/-- The reuse test of the new-window handler: a popup exists, its closed
property is falsy and it currently shows exactly the requested URL. -/
def popupOpenAt (st : NavState) (url : String) : Bool :=
  match st.popupWindow with
  | some pw => ¬ pw.closed ∧ pw.url = url
  | none => false

/-- new BrowserWindow for the popup: fresh identity, not yet showing a
URL, shown only once ready-to-show fires. -/
def createPopup (st : NavState) : NavState :=
  { st with popupWindow := some { id := st.nextPopupId, url := "", closed := false, shown := false }
            nextPopupId := st.nextPopupId + 1
            createdCount := st.createdCount + 1 }

/-- The creation step of the popup branch: construct a new popup only
when none exists or the existing one is closed. -/
def ensurePopup (st : NavState) : NavState :=
  match st.popupWindow with
  | some pw => if pw.closed then createPopup st else st
  | none => createPopup st

/-- popupWindow.loadURL: navigate the popup to the URL.  The user-agent
override applied for non-managed resources does not change the popup
state observed by the claims. -/
def popupLoadURL (st : NavState) (url : String) : NavState :=
  { st with popupWindow := st.popupWindow.map (fun pw => { pw with url := url }) }

/-- The once ready-to-show callback: popupWindow.show(). -/
def popupReadyToShow (st : NavState) : NavState :=
  { st with popupWindow := st.popupWindow.map (fun pw => { pw with shown := true }) }

/-- The once closed callback: the singleton reference is dropped. -/
def popupClosedEvent (st : NavState) : NavState :=
  { st with popupWindow := none }

/-- The TypeError raised by reading .protocol from a null parse result. -/
def navTypeError : String := "TypeError: cannot read property protocol of null"

/-- The new-window handler installed by handleAppWebContentsCreated,
mirroring its early-return cascade.  Reading parsedURL.protocol happens
before any null check, so an unparseable URL raises. -/
def newWindowHandler (uu : UrlUtils) (teams : List Server) (scheme : String)
    (st : NavState) (url : String) : Except String NavState :=
  match uu.parseURL url with
  | none => Except.error navTypeError
  | some parsedURL =>
    if parsedURL.protocol = "devtools:" then Except.ok st
    else if uu.isValidURI url = false then Except.ok st
    else if parsedURL.protocol ≠ "http:" ∧ parsedURL.protocol ≠ "https:" ∧ parsedURL.protocol ≠ scheme ++ ":" then
      Except.ok { st with protocolDialogs := st.protocolDialogs ++ [(parsedURL.protocol, url)] }
    else
      match uu.getServer (some parsedURL) teams with
      | none => Except.ok { st with externalOpens := st.externalOpens ++ [url] }
      | some server =>
        if isPublicFilesPath parsedURL.pathname then
          Except.ok { st with externalOpens := st.externalOpens ++ [url] }
        else if isHelpPath parsedURL.pathname then
          Except.ok { st with externalOpens := st.externalOpens ++ [url] }
        else if uu.isTeamUrl server.url (some parsedURL) true then Except.ok st
        else if uu.isAdminUrl server.url (some parsedURL) then Except.ok st
        else if popupOpenAt st url then Except.ok st
        else if uu.isPluginUrl server.url (some parsedURL) || uu.isManagedResource server.url (some parsedURL) then
          Except.ok (popupLoadURL (ensurePopup st) url)
        else Except.ok st

/-- The will-navigate handler installed by handleAppWebContentsCreated.
trustedPopup stands for isTrustedPopupWindow(event.sender), inProgress
for customLogins of the sender, settingsPage for the run-mode and
renderer-path condition (it only reads fields of parsedURL and the run
mode).  The result records whether event.preventDefault() ran.  Reading
parsedURL.protocol for the mailto test happens before any null check, so
an unparseable URL that passes the first two classifier tests raises. -/
def willNavigateHandler (uu : UrlUtils) (teams : List Server)
    (trustedPopup : Bool) (inProgress : Bool) (settingsPage : Bool)
    (url : String) : Except String Bool :=
  let parsedURL := uu.parseURL url
  let server := uu.getServer parsedURL teams
  if (match server with
      | some srv => uu.isTeamUrl srv.url parsedURL false || uu.isAdminUrl srv.url parsedURL || trustedPopup
      | none => false) then Except.ok false
  else if uu.isCustomLoginURL parsedURL server teams then Except.ok false
  else
    match parsedURL with
    | none => Except.error navTypeError
    | some p =>
      if p.protocol = "mailto:" then Except.ok false
      else if inProgress then Except.ok false
      else if settingsPage then Except.ok false
      else Except.ok true

/-- Modelled from the spec: a concrete instance of the URL parser of
common/utils/url, which is not among the supplied sources.  Per the spec,
parsing is total and a malformed URL yields no value instead of raising:
only http and https URLs with a host parse here. -/
def specParseURL (u : String) : Option URLRec :=
  if strStarts u "https://" then
    let rest := u.data.drop 8
    let host := rest.takeWhile (fun c => c ≠ '/')
    let path := rest.dropWhile (fun c => c ≠ '/')
    if host = [] then none
    else some { protocol := "https:", host := String.mk host
                pathname := if path = [] then "/" else String.mk path }
  else if strStarts u "http://" then
    let rest := u.data.drop 7
    let host := rest.takeWhile (fun c => c ≠ '/')
    let path := rest.dropWhile (fun c => c ≠ '/')
    if host = [] then none
    else some { protocol := "http:", host := String.mk host
                pathname := if path = [] then "/" else String.mk path }
  else none

/-- Modelled from the spec: getServer resolves a parsed URL against the
configured server list by origin match; a null parse resolves to no
server. -/
def specGetServer (p : Option URLRec) (teams : List Server) : Option Server :=
  match p with
  | none => none
  | some rec => teams.find? (fun s => s.url == rec.protocol ++ "//" ++ rec.host)

/-- Modelled from the spec: the admin-console path predicate; null
parses never match. -/
def specIsAdminUrl (serverURL : String) (p : Option URLRec) : Bool :=
  match p with
  | some rec => strStarts rec.pathname "/admin_console"
  | none => false

/-- Modelled from the spec: the plugin path predicate; null parses never
match. -/
def specIsPluginUrl (serverURL : String) (p : Option URLRec) : Bool :=
  match p with
  | some rec => strStarts rec.pathname "/plugins/"
  | none => false

/-- Modelled from the spec: the managed-resource path predicate; null
parses never match. -/
def specIsManagedResource (serverURL : String) (p : Option URLRec) : Bool :=
  match p with
  | some rec => strStarts rec.pathname "/trusted/"
  | none => false

/-- Modelled from the spec: the team path predicate, true for server
paths outside the special path-pattern sets; null parses never match. -/
def specIsTeamUrl (serverURL : String) (p : Option URLRec) (withApi : Bool) : Bool :=
  match p with
  | some rec =>
    ¬ (strStarts rec.pathname "/plugins/" ∨ strStarts rec.pathname "/admin_console" ∨
       strStarts rec.pathname "/trusted/" ∨ strStarts rec.pathname "/api/" ∨
       strStarts rec.pathname "/help/" ∨ strStarts rec.pathname "/files/" ∨
       strStarts rec.pathname "/oauth/" ∨ strStarts rec.pathname "/login/sso/")
  | none => false

/-- Modelled from the spec: the custom-login path predicate; null parses
never match. -/
def specIsCustomLoginURL (p : Option URLRec) (server : Option Server) (teams : List Server) : Bool :=
  match p with
  | some rec => strStarts rec.pathname "/oauth/" || strStarts rec.pathname "/login/sso/"
  | none => false

/-- Modelled from the spec: the bundled concrete URL utilities used to
instantiate the parametric handlers at concrete inputs. -/
def specUrlUtils : UrlUtils :=
  { parseURL := specParseURL
    getServer := specGetServer
    isTeamUrl := specIsTeamUrl
    isAdminUrl := specIsAdminUrl
    isPluginUrl := specIsPluginUrl
    isManagedResource := specIsManagedResource
    isValidURI := fun u => (specParseURL u).isSome
    isCustomLoginURL := specIsCustomLoginURL
    isTrustedURL := fun p teams => (specGetServer p teams).isSome }

/-- The server of the spec scenarios. -/
def srvA : Server := { name := "A", url := "https://a.example.com" }

/-- The configured server list of the spec scenarios. -/
def teamsA : List Server := [srvA]

/-- The exhausting failure run of the spec scenario: the initial load
fails, and every scheduled retry fails in turn until the counter is
exhausted. -/
def failRun : MattermostView :=
  (((((mkView srvA).loadAttemptFailed "u" "e").fireRetryTimer 0
      (LoadOutcome.failed "e")).fireRetryTimer 1
      (LoadOutcome.failed "e")).fireRetryTimer 2
      (LoadOutcome.failed "e")).fireRetryTimer 3 (LoadOutcome.failed "e")

/-- A view that has failed once and whose first retry failed: one retry
timer is pending and the retry counter has been decremented once. -/
def c1s : MattermostView :=
  ((mkView srvA).loadAttemptFailed "u" "e").fireRetryTimer 0 (LoadOutcome.failed "e")

/-- Two favicon-update events with the same favicon, with no probe
result processed in between. -/
def c5s : MattermostView :=
  ((mkView srvA).handleFaviconUpdate ["f"]).handleFaviconUpdate ["f"]

/-- A fresh view whose title has been observed with the asterisk marker
definitively absent. -/
def c3s1 : MattermostView :=
  (mkView srvA).handleTitleUpdate "Channel"

/-- Continuation of c3s1: a favicon update, its probe result, and a
second update of the same favicon answered from the memo. -/
def c3s3 : MattermostView :=
  ((c3s1.handleFaviconUpdate ["f1"]).handleFaviconIsUnread (some "f1") "A" true).handleFaviconUpdate ["f1"]

/-- A fresh view whose title has been observed with the asterisk marker
present. -/
def sStar : MattermostView :=
  (mkView srvA).handleTitleUpdate "*General"

/-- A view with one failed load: exactly one retry timer pending. -/
def c7s : MattermostView :=
  (mkView srvA).loadAttemptFailed "u" "e"

/-- First popup request of the popup scenario. -/
def c6url1 : String := "https://a.example.com/plugins/x"

/-- Second popup request of the popup scenario, same server, different
plugin URL. -/
def c6url2 : String := "https://a.example.com/plugins/y"

/-- The navigation state after the first popup request. -/
def c6St1 : NavState :=
  match newWindowHandler specUrlUtils teamsA "mattermost" navInit c6url1 with
  | Except.ok st => st
  | Except.error _ => navInit

/-- The navigation state after a second popup request for a different
plugin URL while the first popup is still open. -/
def c6St2 : NavState :=
  match newWindowHandler specUrlUtils teamsA "mattermost" c6St1 c6url2 with
  | Except.ok st => st
  | Except.error _ => navInit

/-- takeDigits consumes exactly a digit group that is terminated by a
closing parenthesis. -/
theorem takeDigits_marker (ds : List Char) (r : List Char)
    (h : ∀ c ∈ ds, c.isDigit = true) :
    takeDigits (ds ++ ')' :: r) = (ds, ')' :: r) := by
  induction ds with
  | nil =>
    have hp : (')'.isDigit) = false := by decide
    simp [takeDigits, hp]
  | cons c t ih =>
    have hc : c.isDigit = true := h c (by simp)
    have ht : ∀ x ∈ t, x.isDigit = true := fun x hx => h x (by simp [hx])
    simp [takeDigits, hc, ih ht]

/-- The mention-group matcher accepts exactly a leading marker made of a
parenthesised nonempty digit group followed by a space. -/
theorem matchMentionGroup_marker (ds : List Char) (r : List Char)
    (hne : ds ≠ []) (h : ∀ c ∈ ds, c.isDigit = true) :
    matchMentionGroup ('(' :: (ds ++ ')' :: ' ' :: r)) = some (ds, r) := by
  have ht := takeDigits_marker ds (' ' :: r) h
  simp [matchMentionGroup, ht, hne]

/-- Group extraction for a title that carries the leading mention
marker. -/
theorem titleGroups_marker (ds : List Char) (rest : List Char)
    (hne : ds ≠ []) (h : ∀ c ∈ ds, c.isDigit = true) :
    titleGroups (String.mk ('(' :: (ds ++ ')' :: ' ' :: rest))) =
      (some ds, rest.head? == some '*') := by
  simp [titleGroups, matchMentionGroup_marker ds rest hne h]

/-- handleTitleUpdate does not touch the retry counter. -/
theorem handleTitleUpdate_maxRetries (s : MattermostView) (t : String) :
    (s.handleTitleUpdate t).maxRetries = s.maxRetries := by
  by_cases h : (titleGroups t).2 = true <;>
    simp [MattermostView.handleTitleUpdate, h]

/-- findUnreadState does not touch the retry counter. -/
theorem findUnreadState_maxRetries (s : MattermostView) (f : Option String) :
    (s.findUnreadState f).maxRetries = s.maxRetries := rfl

/-- Claim C1 (amended): load() clears the stored retry-timer handle but
does not cancel the scheduled timer (which stays pending and can still
fire) and does not touch the retry counter; the counter is reset to its
configured maximum only by a successful load. -/
theorem claim_C1_amended :
    (∀ (s : MattermostView) (someURL : Option String),
      (s.load someURL).retryLoad = none ∧
      (s.load someURL).pendingTimers = s.pendingTimers ∧
      (s.load someURL).maxRetries = s.maxRetries) ∧
    (∀ (s : MattermostView) (url title : String),
      (s.loadSuccess url title).maxRetries = MAX_SERVER_RETRIES) := by
  constructor
  · intro s u
    exact ⟨rfl, rfl, rfl⟩
  · intro s url title
    by_cases hs : s.status = LOADING <;>
      simp [MattermostView.loadSuccess, hs, findUnreadState_maxRetries,
            handleTitleUpdate_maxRetries]

/-- Claim C1 counterexample: after a failure and one failed retry a
second retry is pending and the counter stands at 2; calling load() does
not remove the pending timer, does not restore the counter to the
maximum of 3, and the timer still fires afterwards (the retry runs and
emits another LOAD_RETRY message). -/
theorem claim_C1_counterexample :
    (c1s.load none).pendingTimers ≠ [] ∧
    (c1s.load none).maxRetries ≠ MAX_SERVER_RETRIES ∧
    ((c1s.load none).fireRetryTimer 1 (LoadOutcome.failed "e")).renderer.length =
      (c1s.load none).renderer.length + 1 := by decide

/-- Claim C2 (amended): when the initial load fails and every scheduled
retry fails in turn, the view ends in the ERROR status, exactly one
terminal LOAD_FAILED message is sent, no retry timer remains pending, and
the exhausting failure post-decrements the retry counter from 0 to -1. -/
theorem claim_C2_amended :
    failRun.status = ERROR ∧
    countLoadFailed failRun.renderer = 1 ∧
    failRun.pendingTimers = [] ∧
    failRun.maxRetries = -1 := by decide

/-- Claim C2 counterexample: the exhausting failure leaves the retry
counter below zero, against the claim that one more failure does not
decrement it past zero. -/
theorem claim_C2_counterexample :
    failRun.status = ERROR ∧ failRun.maxRetries < 0 := by decide

/-- Claim C4: the title "(3) *Channel" publishes mentions 3 and unreads
true; the following title "Channel" (mode already established) publishes
mentions 0 and unreads false; in general the published mention count is
0 when the leading numeric marker is absent, and the numeric value of
the digit group when a leading marker (<digits>) followed by a space is
present. -/
theorem claim_C4 :
    ((mkView srvA).handleTitleUpdate "(3) *Channel").appMsgs =
      [AppStateMsg.updateMentions "A" 3 (some true)] ∧
    (((mkView srvA).handleTitleUpdate "(3) *Channel").handleTitleUpdate "Channel").appMsgs =
      [AppStateMsg.updateMentions "A" 3 (some true),
       AppStateMsg.updateMentions "A" 0 (some false)] ∧
    (∀ (s : MattermostView) (title : String),
      (titleGroups title).1 = none →
      lastMentions (s.handleTitleUpdate title) = some 0) ∧
    (∀ (s : MattermostView) (ds rest : List Char),
      ds ≠ [] → (∀ c ∈ ds, c.isDigit = true) →
      lastMentions (s.handleTitleUpdate (String.mk ('(' :: (ds ++ ')' :: ' ' :: rest)))) =
        some (natOfDigits ds)) := by
  refine ⟨by decide, by decide, ?_, ?_⟩
  · intro s title h
    by_cases h2 : (titleGroups title).2 = true <;>
      simp [MattermostView.handleTitleUpdate, lastMentions, lastAppMsg, h, h2]
  · intro s ds rest hne h
    have hg := titleGroups_marker ds rest hne h
    by_cases h2 : (titleGroups (String.mk ('(' :: (ds ++ ')' :: ' ' :: rest)))).2 = true <;>
      simp [MattermostView.handleTitleUpdate, lastMentions, lastAppMsg, hg, h2]

/-- Claim C4 witness: concrete instances of the two general parts. -/
theorem claim_C4_witness :
    lastMentions ((mkView srvA).handleTitleUpdate "NoMarker") = some 0 ∧
    lastMentions ((mkView srvA).handleTitleUpdate (String.mk ('(' :: (['4', '2'] ++ ')' :: ' ' :: "*Hi".data)))) =
      some (natOfDigits ['4', '2']) ∧
    natOfDigits ['4', '2'] = 42 :=
  ⟨claim_C4.2.2.1 (mkView srvA) "NoMarker" (by decide),
   claim_C4.2.2.2 (mkView srvA) ['4', '2'] "*Hi".data (by decide) (by decide),
   by decide⟩

/-- handleTitleUpdate either raises the asterisk flag to some true or
leaves it unchanged. -/
theorem handleTitleUpdate_uses (s : MattermostView) (t : String) :
    (s.handleTitleUpdate t).usesAsteriskForUnreads =
      if (titleGroups t).2 = true then some true else s.usesAsteriskForUnreads := by
  by_cases h : (titleGroups t).2 = true <;> simp [MattermostView.handleTitleUpdate, h]

/-- loadRetry does not touch the asterisk flag. -/
theorem loadRetry_uses (s : MattermostView) (u e : String) :
    (s.loadRetry u e).usesAsteriskForUnreads = s.usesAsteriskForUnreads := rfl

/-- loadSuccess preserves an established asterisk flag. -/
theorem loadSuccess_uses_pres (s : MattermostView) (u t : String)
    (h : s.usesAsteriskForUnreads = some true) :
    (s.loadSuccess u t).usesAsteriskForUnreads = some true := by
  by_cases hs : s.status = LOADING <;>
    simp [MattermostView.loadSuccess, hs, MattermostView.findUnreadState,
          handleTitleUpdate_uses, h]

/-- The retry closure preserves an established asterisk flag. -/
theorem retry_uses_pres (s : MattermostView) (u : String) (o : LoadOutcome)
    (h : s.usesAsteriskForUnreads = some true) :
    (s.retry u o).usesAsteriskForUnreads = some true := by
  by_cases hv : s.viewAlive = false
  · simp [MattermostView.retry, hv, h]
  · cases o with
    | ok title =>
      simpa [MattermostView.retry, hv] using loadSuccess_uses_pres s u title h
    | failed err =>
      by_cases hm : s.maxRetries > 0 <;>
        simp [MattermostView.retry, hv, hm, loadRetry_uses, h]

/-- A firing retry timer preserves an established asterisk flag. -/
theorem fireRetryTimer_uses_pres (s : MattermostView) (id : Nat) (o : LoadOutcome)
    (h : s.usesAsteriskForUnreads = some true) :
    (s.fireRetryTimer id o).usesAsteriskForUnreads = some true := by
  unfold MattermostView.fireRetryTimer
  cases hf : s.pendingTimers.find? (fun t => t.id == id) with
  | none => simpa using h
  | some t => exact retry_uses_pres _ _ _ (by simpa using h)

/-- clearTimeout does not touch the asterisk flag. -/
theorem clearTimer_uses (s : MattermostView) (i : Option Nat) :
    (s.clearTimer i).usesAsteriskForUnreads = s.usesAsteriskForUnreads := by
  cases i <;> rfl

/-- destroy does not touch the asterisk flag. -/
theorem destroy_uses (s : MattermostView) :
    (s.destroy).usesAsteriskForUnreads = s.usesAsteriskForUnreads := by
  simp [MattermostView.destroy, clearTimer_uses]

/-- Once the asterisk mode is established, a favicon-update event is a
complete no-op: the state, hence also every published message and every
probe, is unchanged. -/
theorem handleFaviconUpdate_noop (s : MattermostView) (favicons : List String)
    (h : s.usesAsteriskForUnreads = some true) :
    s.handleFaviconUpdate favicons = s := by
  simp [MattermostView.handleFaviconUpdate, h, truthy]

/-- handleFaviconIsUnread does not touch the asterisk flag. -/
theorem handleFaviconIsUnread_uses (s : MattermostView) (f : Option String)
    (n : String) (r : Bool) :
    (s.handleFaviconIsUnread f n r).usesAsteriskForUnreads = s.usesAsteriskForUnreads := by
  unfold MattermostView.handleFaviconIsUnread
  cases hsrv : s.server with
  | none => rfl
  | some srv =>
    by_cases hn : n = srv.name
    · cases f with
      | none => simp [hn]
      | some g =>
        by_cases hg : g ≠ "" <;> by_cases hc : some g = s.currentFavicon <;>
          simp [hn, hg, hc]
    · simp [hn]

/-- Every single event preserves an established asterisk flag. -/
theorem event_uses_pres (e : MVEvent) (s : MattermostView)
    (h : s.usesAsteriskForUnreads = some true) :
    (e.apply s).usesAsteriskForUnreads = some true := by
  cases e with
  | load u => simpa [MVEvent.apply, MattermostView.load] using h
  | loadFailedEv url err =>
    simpa [MVEvent.apply, MattermostView.loadAttemptFailed, loadRetry_uses] using h
  | loadSucceededEv url title => exact loadSuccess_uses_pres s url title h
  | retryFired id o => exact fireRetryTimer_uses_pres s id o h
  | titleUpdated t => simp [MVEvent.apply, handleTitleUpdate_uses, h]
  | faviconUpdated fs => simp [MVEvent.apply, handleFaviconUpdate_noop s fs h, h]
  | unreadResult f n r => simpa [MVEvent.apply, handleFaviconIsUnread_uses] using h
  | destroyed => simpa [MVEvent.apply, destroy_uses] using h

/-- Claim C3 (amended): observing a title whose asterisk group is
defined (the marker is present) permanently establishes the asterisk
detection mode: the flag is some true, every later event of the view
keeps it some true, and while it holds every favicon-update event leaves
the state (so also the published unread state) completely unchanged.  A
title with the marker absent does not establish the mode. -/
theorem claim_C3_amended :
    (∀ (s : MattermostView) (title : String),
      (titleGroups title).2 = true →
      (s.handleTitleUpdate title).usesAsteriskForUnreads = some true) ∧
    (∀ (es : List MVEvent) (s : MattermostView),
      s.usesAsteriskForUnreads = some true →
      (applyEvents es s).usesAsteriskForUnreads = some true) ∧
    (∀ (s : MattermostView) (favicons : List String),
      s.usesAsteriskForUnreads = some true →
      s.handleFaviconUpdate favicons = s) := by
  refine ⟨?_, ?_, ?_⟩
  · intro s title h
    simp [handleTitleUpdate_uses, h]
  · intro es
    induction es with
    | nil => intro s h; simpa [applyEvents] using h
    | cons e t ih =>
      intro s h
      have : applyEvents (e :: t) s = applyEvents t (e.apply s) := rfl
      rw [this]
      exact ih _ (event_uses_pres e s h)
  · intro s favicons h
    exact handleFaviconUpdate_noop s favicons h

/-- Claim C3 witness: the title "*General" establishes the mode, the
mode survives a favicon update followed by a probe result, and a favicon
update leaves the established state unchanged. -/
theorem claim_C3_witness :
    sStar.usesAsteriskForUnreads = some true ∧
    (applyEvents [MVEvent.faviconUpdated ["f"], MVEvent.unreadResult (some "f") "A" true]
        sStar).usesAsteriskForUnreads = some true ∧
    sStar.handleFaviconUpdate ["f"] = sStar := by
  have hA := claim_C3_amended.1 (mkView srvA) "*General" (by decide)
  exact ⟨hA, claim_C3_amended.2.1 _ sStar hA, claim_C3_amended.2.2 sStar ["f"] hA⟩

/-- Claim C3 counterexample: a title observed with the asterisk marker
definitively absent does not put the view in the title-marker mode, and
subsequent favicon-update events still drive the published unread state:
the first update issues a probe, and after its result is memoized a
second update of the same favicon itself publishes an unread update. -/
theorem claim_C3_counterexample :
    c3s1.usesAsteriskForUnreads ≠ some true ∧
    (c3s1.handleFaviconUpdate ["f1"]).probes ≠ c3s1.probes ∧
    c3s3.appMsgs = [AppStateMsg.updateMentions "A" 0 none,
                    AppStateMsg.updateUnreads "A" true,
                    AppStateMsg.updateUnreads "A" true] := by decide

/-- Looking up a key just stored by setMemo yields the stored value. -/
theorem lookupMemo_setMemo (m : List (String × Bool)) (k : String) (v : Bool) :
    lookupMemo (setMemo m k v) (some k) = some v := by
  induction m with
  | nil => simp [setMemo, lookupMemo]
  | cons q t ih =>
    by_cases h : q.1 = k
    · simp [setMemo, lookupMemo, List.find?, h]
    · simp [setMemo, lookupMemo, List.find?, h] at ih ⊢
      exact ih

/-- A favicon-update event that misses the memo records the favicon as
current and issues exactly one probe. -/
theorem handleFaviconUpdate_miss (s : MattermostView) (f : String)
    (h1 : truthy s.usesAsteriskForUnreads = false)
    (h2 : lookupMemo s.faviconMemoize (some f) = none) :
    s.handleFaviconUpdate [f] =
      { s with currentFavicon := some f, probes := s.probes ++ [some f] } := by
  simp [MattermostView.handleFaviconUpdate, MattermostView.findUnreadState, h1, h2]

/-- A favicon-update event that hits the memo publishes the memoized
value and issues no probe. -/
theorem handleFaviconUpdate_hit (s : MattermostView) (f : String) (v : Bool)
    (h1 : truthy s.usesAsteriskForUnreads = false)
    (h2 : lookupMemo s.faviconMemoize (some f) = some v) :
    s.handleFaviconUpdate [f] =
      { s with currentFavicon := some f,
               appMsgs := s.appMsgs ++ [AppStateMsg.updateUnreads s.serverName v] } := by
  simp [MattermostView.handleFaviconUpdate, MattermostView.serverName, h1, h2]

/-- A probe result for the still-current nonempty favicon of the
addressed server is memoized and published. -/
theorem handleFaviconIsUnread_current (s : MattermostView) (srv : Server) (f : String) (r : Bool)
    (hs : s.server = some srv) (hf : f ≠ "") (hc : s.currentFavicon = some f) :
    s.handleFaviconIsUnread (some f) srv.name r =
      { s with faviconMemoize := setMemo s.faviconMemoize f r,
               appMsgs := s.appMsgs ++ [AppStateMsg.updateUnreads srv.name r] } := by
  simp [MattermostView.handleFaviconIsUnread, hs, hf, hc]

/-- A probe result for the null favicon of the addressed server is
published but leaves the memo alone. -/
theorem handleFaviconIsUnread_null (s : MattermostView) (srv : Server) (r : Bool)
    (hs : s.server = some srv) :
    s.handleFaviconIsUnread none srv.name r =
      { s with appMsgs := s.appMsgs ++ [AppStateMsg.updateUnreads srv.name r] } := by
  simp [MattermostView.handleFaviconIsUnread, hs]

/-- Claim C5 (amended): when the result of the first probe has been
processed before the second favicon-update event of the same non-null
favicon, only one probe is issued in total: the first update probes, the
probe result adds nothing to the probe stream, and the second update is
answered from the memo, publishing the memoized value without probing.
A probe result for a null favicon is published but never memoized.  (A
second update arriving before the probe result has been processed misses
the memo and issues a second probe.) -/
theorem claim_C5_amended :
    ∀ (s : MattermostView) (srv : Server) (f : String) (r : Bool),
      s.server = some srv →
      truthy s.usesAsteriskForUnreads = false →
      lookupMemo s.faviconMemoize (some f) = none →
      f ≠ "" →
      (s.handleFaviconUpdate [f]).probes = s.probes ++ [some f] ∧
      ((s.handleFaviconUpdate [f]).handleFaviconIsUnread (some f) srv.name r).probes =
        (s.handleFaviconUpdate [f]).probes ∧
      (((s.handleFaviconUpdate [f]).handleFaviconIsUnread (some f) srv.name r).handleFaviconUpdate
          [f]).probes =
        (s.handleFaviconUpdate [f]).probes ∧
      (((s.handleFaviconUpdate [f]).handleFaviconIsUnread (some f) srv.name r).handleFaviconUpdate
          [f]).appMsgs =
        ((s.handleFaviconUpdate [f]).handleFaviconIsUnread (some f) srv.name r).appMsgs ++
          [AppStateMsg.updateUnreads srv.name r] ∧
      (s.handleFaviconIsUnread none srv.name r).faviconMemoize = s.faviconMemoize ∧
      (s.handleFaviconIsUnread none srv.name r).appMsgs =
        s.appMsgs ++ [AppStateMsg.updateUnreads srv.name r] := by
  intro s srv f r hs hu hm hf
  refine ⟨?_, ?_, ?_, ?_, ?_, ?_⟩ <;>
    simp [MattermostView.handleFaviconUpdate, MattermostView.handleFaviconIsUnread,
          MattermostView.findUnreadState, MattermostView.serverName, hs, hu, hm, hf,
          lookupMemo_setMemo]

/-- Claim C5 counterexample: two favicon-update events carrying the same
non-null favicon, with the probe result of the first still pending,
issue two probes, against the claim that at most one probe is issued. -/
theorem claim_C5_counterexample :
    c5s.probes = [some "f", some "f"] ∧ ¬ (c5s.probes.length ≤ 1) := by decide

/-- Claim C5 witness: the amended statement instantiated on a fresh
view of server A with favicon fav. -/
theorem claim_C5_witness :
    ((mkView srvA).handleFaviconUpdate ["fav"]).probes = (mkView srvA).probes ++ [some "fav"] ∧
    ((((mkView srvA).handleFaviconUpdate ["fav"]).handleFaviconIsUnread (some "fav") "A"
        true).handleFaviconUpdate ["fav"]).probes =
      ((mkView srvA).handleFaviconUpdate ["fav"]).probes ∧
    ((mkView srvA).handleFaviconIsUnread none "A" true).faviconMemoize =
      (mkView srvA).faviconMemoize := by
  have h := claim_C5_amended (mkView srvA) srvA "fav" true rfl (by decide) (by decide)
    (by decide)
  exact ⟨h.1, h.2.2.1, h.2.2.2.2.1⟩

/-- clearTimeout does not touch the server reference. -/
theorem clearTimer_server (s : MattermostView) (i : Option Nat) :
    (s.clearTimer i).server = s.server := by
  cases i <;> rfl

/-- Claim C7: on a load failure with retries remaining, exactly one
retry timer is scheduled, due after the fixed RELOAD_INTERVAL, and
exactly one LOAD_RETRY message is sent carrying the next-attempt
timestamp now + RELOAD_INTERVAL; the initial-failure path and every
retrying failure use the same constant interval. -/
theorem claim_C7 :
    (∀ (s : MattermostView) (url err : String),
      (s.loadAttemptFailed url err).pendingTimers =
        s.pendingTimers ++ [{ id := s.nextTimerId, loadURL := url, due := s.now + RELOAD_INTERVAL }] ∧
      (s.loadAttemptFailed url err).renderer =
        s.renderer ++ [RendererMsg.loadRetry s.serverName (s.now + RELOAD_INTERVAL) err url] ∧
      (s.loadAttemptFailed url err).retryLoad = some s.nextTimerId) ∧
    (∀ (s : MattermostView) (id : Nat) (t : RetryTimer) (err : String),
      s.pendingTimers.find? (fun t2 => t2.id == id) = some t →
      s.viewAlive = true →
      s.maxRetries > 0 →
      (s.fireRetryTimer id (LoadOutcome.failed err)).pendingTimers =
        s.pendingTimers.filter (fun t2 => t2.id != id) ++
          [{ id := s.nextTimerId, loadURL := t.loadURL, due := s.now + RELOAD_INTERVAL }] ∧
      (s.fireRetryTimer id (LoadOutcome.failed err)).renderer =
        s.renderer ++ [RendererMsg.loadRetry s.serverName (s.now + RELOAD_INTERVAL) err t.loadURL]) := by
  constructor
  · intro s url err
    exact ⟨rfl, rfl, rfl⟩
  · intro s id t err hfind hv hm
    unfold MattermostView.fireRetryTimer
    rw [hfind]
    unfold MattermostView.retry
    simp [hv, hm, MattermostView.loadRetry, MattermostView.serverName]

/-- Claim C7 witness: the first scheduled retry of c7s fires and fails;
exactly one new timer and one LOAD_RETRY message result. -/
theorem claim_C7_witness :
    (c7s.fireRetryTimer 0 (LoadOutcome.failed "e")).pendingTimers =
      c7s.pendingTimers.filter (fun t2 => t2.id != 0) ++
        [{ id := c7s.nextTimerId, loadURL := "u", due := c7s.now + RELOAD_INTERVAL }] ∧
    (c7s.fireRetryTimer 0 (LoadOutcome.failed "e")).renderer =
      c7s.renderer ++ [RendererMsg.loadRetry c7s.serverName (c7s.now + RELOAD_INTERVAL) "e" "u"] := by
  have h := claim_C7.2 c7s 0 { id := 0, loadURL := "u", due := RELOAD_INTERVAL } "e"
    (by decide) (by decide) (by decide)
  exact ⟨h.1, h.2⟩

/-- Claim C10: the UNREAD_RESULT handler leaves the state (memo and
published unread state included) completely unchanged when the view no
longer holds a server reference or when the event names a different
server, and destroy() clears the server reference. -/
theorem claim_C10 :
    (∀ (s : MattermostView) (fav : Option String) (n : String) (r : Bool),
      s.server = none → s.handleFaviconIsUnread fav n r = s) ∧
    (∀ (s : MattermostView) (srv : Server) (fav : Option String) (n : String) (r : Bool),
      s.server = some srv → n ≠ srv.name → s.handleFaviconIsUnread fav n r = s) ∧
    (∀ (s : MattermostView), s.destroy.server = none) := by
  refine ⟨?_, ?_, ?_⟩
  · intro s fav n r h
    simp [MattermostView.handleFaviconIsUnread, h]
  · intro s srv fav n r h hn
    simp [MattermostView.handleFaviconIsUnread, h, hn]
  · intro s
    simp [MattermostView.destroy, clearTimer_server]

/-- Claim C10 witness: a result addressed to server B and a result
arriving after destroy() both leave the state unchanged. -/
theorem claim_C10_witness :
    (mkView srvA).destroy.handleFaviconIsUnread (some "f") "A" true = (mkView srvA).destroy ∧
    (mkView srvA).handleFaviconIsUnread (some "f") "B" true = mkView srvA ∧
    (mkView srvA).destroy.server = none :=
  ⟨claim_C10.1 (mkView srvA).destroy (some "f") "A" true (by decide),
   claim_C10.2.1 (mkView srvA) srvA (some "f") "B" true (by decide) (by decide),
   claim_C10.2.2 (mkView srvA)⟩

/-- Claim C8: a new-window request whose pathname matches the
public-download pattern or the help pattern, or whose URL resolves to no
configured server, is opened in the system-default browser; the popup
state is untouched.  The pattern cases fire even when the URL resolves
to a configured server, because they are tested before the team, admin
and popup branches. -/
theorem claim_C8 :
    ∀ (uu : UrlUtils) (teams : List Server) (scheme : String) (st : NavState)
      (url : String) (p : URLRec),
      uu.parseURL url = some p →
      (p.protocol = "http:" ∨ p.protocol = "https:") →
      uu.isValidURI url = true →
      (isPublicFilesPath p.pathname = true ∨ isHelpPath p.pathname = true ∨
        uu.getServer (some p) teams = none) →
      newWindowHandler uu teams scheme st url =
        Except.ok { st with externalOpens := st.externalOpens ++ [url] } := by
  intro uu teams scheme st url p hp hproto hvalid hcase
  have hdev : p.protocol ≠ "devtools:" := by
    rcases hproto with h | h <;> simp [h]
  have hnot : ¬ (p.protocol ≠ "http:" ∧ p.protocol ≠ "https:" ∧ p.protocol ≠ scheme ++ ":") := by
    rcases hproto with h | h <;> simp [h]
  unfold newWindowHandler
  rw [hp]
  rcases hcase with hc | hc | hc
  · cases hg : uu.getServer (some p) teams with
    | none => simp [hdev, hvalid, hnot, hg]
    | some server => simp [hdev, hvalid, hnot, hg, hc]
  · cases hg : uu.getServer (some p) teams with
    | none => simp [hdev, hvalid, hnot, hg]
    | some server =>
      by_cases hpub : isPublicFilesPath p.pathname = true
      · simp [hdev, hvalid, hnot, hg, hpub]
      · simp [hdev, hvalid, hnot, hg, hpub, hc]
  · simp [hdev, hvalid, hnot, hc]

/-- Claim C8 witness: the public-download URL of the spec scenario,
which does resolve to the configured server A, opens externally and
creates no popup; so does a URL of an unconfigured server. -/
theorem claim_C8_witness :
    newWindowHandler specUrlUtils teamsA "mattermost" navInit
        "https://a.example.com/api/v4/public/files/x" =
      Except.ok { navInit with
        externalOpens := navInit.externalOpens ++ ["https://a.example.com/api/v4/public/files/x"] } ∧
    newWindowHandler specUrlUtils teamsA "mattermost" navInit "https://b.example.com/x" =
      Except.ok { navInit with
        externalOpens := navInit.externalOpens ++ ["https://b.example.com/x"] } :=
  ⟨claim_C8 specUrlUtils teamsA "mattermost" navInit
      "https://a.example.com/api/v4/public/files/x"
      { protocol := "https:", host := "a.example.com", pathname := "/api/v4/public/files/x" }
      (by decide) (Or.inr rfl) (by decide) (Or.inl (by decide)),
   claim_C8 specUrlUtils teamsA "mattermost" navInit "https://b.example.com/x"
      { protocol := "https:", host := "b.example.com", pathname := "/x" }
      (by decide) (Or.inr rfl) (by decide) (Or.inr (Or.inr (by decide)))⟩

/-- Claim C9: classification is total, the spec-modelled classifier
treats a null parse as no match for every predicate, yet both navigation
handlers dereference the parse result without a null check, so an
unparseable URL makes them raise a TypeError instead of falling through
as no match. -/
theorem claim_C9_bug :
    (∀ (uu : UrlUtils) (teams : List Server) (scheme : String) (st : NavState) (url : String),
      uu.parseURL url = none →
      newWindowHandler uu teams scheme st url = Except.error navTypeError) ∧
    (∀ (uu : UrlUtils) (teams : List Server) (tp ip sp : Bool) (url : String),
      uu.parseURL url = none →
      uu.getServer none teams = none →
      uu.isCustomLoginURL none none teams = false →
      willNavigateHandler uu teams tp ip sp url = Except.error navTypeError) ∧
    (∀ (teams : List Server) (surl : String) (b : Bool),
      specUrlUtils.getServer none teams = none ∧
      specUrlUtils.isTeamUrl surl none b = false ∧
      specUrlUtils.isAdminUrl surl none = false ∧
      specUrlUtils.isPluginUrl surl none = false ∧
      specUrlUtils.isManagedResource surl none = false ∧
      specUrlUtils.isCustomLoginURL none none teams = false ∧
      specUrlUtils.isTrustedURL none teams = false) := by
  refine ⟨?_, ?_, ?_⟩
  · intro uu teams scheme st url h
    simp [newWindowHandler, h]
  · intro uu teams tp ip sp url h1 h2 h3
    simp [willNavigateHandler, h1, h2, h3]
  · intro teams surl b
    exact ⟨rfl, rfl, rfl, rfl, rfl, rfl, rfl⟩

/-- Claim C9 witness: a concrete unparseable URL makes both handlers of
the spec-modelled classifier raise. -/
theorem claim_C9_witness :
    newWindowHandler specUrlUtils teamsA "mattermost" navInit "somebogusurl" =
      Except.error navTypeError ∧
    willNavigateHandler specUrlUtils teamsA false false false "somebogusurl" =
      Except.error navTypeError :=
  ⟨claim_C9_bug.1 specUrlUtils teamsA "mattermost" navInit "somebogusurl" (by decide),
   claim_C9_bug.2.1 specUrlUtils teamsA false false false "somebogusurl"
     (by decide) (by decide) (by decide)⟩

/-- Claim C6 (amended): a new-window request for a plugin or
managed-resource URL creates exactly one popup when none exists or the
existing one is closed, and the created popup is shown once
ready-to-show fires; a second request for the same URL while the popup
is open returns without touching anything; a request for a different URL
while the popup is open reuses the existing popup window, navigating it
to the new URL — the popup is not recreated. -/
theorem claim_C6_amended :
    (∀ (uu : UrlUtils) (teams : List Server) (scheme : String) (st : NavState)
       (url : String) (p : URLRec) (server : Server),
      uu.parseURL url = some p →
      (p.protocol = "http:" ∨ p.protocol = "https:") →
      uu.isValidURI url = true →
      uu.getServer (some p) teams = some server →
      isPublicFilesPath p.pathname = false →
      isHelpPath p.pathname = false →
      uu.isTeamUrl server.url (some p) true = false →
      uu.isAdminUrl server.url (some p) = false →
      (uu.isPluginUrl server.url (some p) = true ∨
        uu.isManagedResource server.url (some p) = true) →
      (st.popupWindow = none ∨ ∃ pw, st.popupWindow = some pw ∧ pw.closed = true) →
      newWindowHandler uu teams scheme st url =
        Except.ok { st with
          popupWindow := some { id := st.nextPopupId, url := url, closed := false, shown := false }
          nextPopupId := st.nextPopupId + 1
          createdCount := st.createdCount + 1 } ∧
      (popupReadyToShow { st with
          popupWindow := some { id := st.nextPopupId, url := url, closed := false, shown := false }
          nextPopupId := st.nextPopupId + 1
          createdCount := st.createdCount + 1 }).popupWindow =
        some { id := st.nextPopupId, url := url, closed := false, shown := true }) ∧
    (∀ (uu : UrlUtils) (teams : List Server) (scheme : String) (st : NavState)
       (url : String) (p : URLRec) (server : Server) (pw : PopupWindow),
      uu.parseURL url = some p →
      (p.protocol = "http:" ∨ p.protocol = "https:") →
      uu.isValidURI url = true →
      uu.getServer (some p) teams = some server →
      isPublicFilesPath p.pathname = false →
      isHelpPath p.pathname = false →
      uu.isTeamUrl server.url (some p) true = false →
      uu.isAdminUrl server.url (some p) = false →
      st.popupWindow = some pw → pw.closed = false → pw.url = url →
      newWindowHandler uu teams scheme st url = Except.ok st) ∧
    (∀ (uu : UrlUtils) (teams : List Server) (scheme : String) (st : NavState)
       (url : String) (p : URLRec) (server : Server) (pw : PopupWindow),
      uu.parseURL url = some p →
      (p.protocol = "http:" ∨ p.protocol = "https:") →
      uu.isValidURI url = true →
      uu.getServer (some p) teams = some server →
      isPublicFilesPath p.pathname = false →
      isHelpPath p.pathname = false →
      uu.isTeamUrl server.url (some p) true = false →
      uu.isAdminUrl server.url (some p) = false →
      (uu.isPluginUrl server.url (some p) = true ∨
        uu.isManagedResource server.url (some p) = true) →
      st.popupWindow = some pw → pw.closed = false → pw.url ≠ url →
      newWindowHandler uu teams scheme st url =
        Except.ok { st with popupWindow := some { pw with url := url } }) := by
  refine ⟨?_, ?_, ?_⟩
  · intro uu teams scheme st url p server hp hproto hvalid hg hpub hhelp hteam hadmin hplug hpw
    have hdev : p.protocol ≠ "devtools:" := by
      rcases hproto with h | h <;> simp [h]
    have hnot : ¬ (p.protocol ≠ "http:" ∧ p.protocol ≠ "https:" ∧ p.protocol ≠ scheme ++ ":") := by
      rcases hproto with h | h <;> simp [h]
    have hopen : popupOpenAt st url = false := by
      rcases hpw with h | ⟨pw, h, hcl⟩
      · simp [popupOpenAt, h]
      · simp [popupOpenAt, h, hcl]
    constructor
    · unfold newWindowHandler
      rw [hp]
      rcases hpw with h | ⟨pw, h, hcl⟩
      · rcases hplug with hpl | hpl <;>
          simp [hdev, hvalid, hnot, hg, hpub, hhelp, hteam, hadmin, hopen, hpl,
                ensurePopup, createPopup, popupLoadURL, h]
      · rcases hplug with hpl | hpl <;>
          simp [hdev, hvalid, hnot, hg, hpub, hhelp, hteam, hadmin, hopen, hpl,
                ensurePopup, createPopup, popupLoadURL, h, hcl]
    · simp [popupReadyToShow]
  · intro uu teams scheme st url p server pw hp hproto hvalid hg hpub hhelp hteam hadmin hpw hcl hurl
    have hdev : p.protocol ≠ "devtools:" := by
      rcases hproto with h | h <;> simp [h]
    have hnot : ¬ (p.protocol ≠ "http:" ∧ p.protocol ≠ "https:" ∧ p.protocol ≠ scheme ++ ":") := by
      rcases hproto with h | h <;> simp [h]
    have hopen : popupOpenAt st url = true := by
      simp [popupOpenAt, hpw, hcl, hurl]
    unfold newWindowHandler
    rw [hp]
    simp [hdev, hvalid, hnot, hg, hpub, hhelp, hteam, hadmin, hopen]
  · intro uu teams scheme st url p server pw hp hproto hvalid hg hpub hhelp hteam hadmin hplug hpw hcl hurl
    have hdev : p.protocol ≠ "devtools:" := by
      rcases hproto with h | h <;> simp [h]
    have hnot : ¬ (p.protocol ≠ "http:" ∧ p.protocol ≠ "https:" ∧ p.protocol ≠ scheme ++ ":") := by
      rcases hproto with h | h <;> simp [h]
    have hopen : popupOpenAt st url = false := by
      simp [popupOpenAt, hpw, hurl]
    unfold newWindowHandler
    rw [hp]
    rcases hplug with hpl | hpl <;>
      simp [hdev, hvalid, hnot, hg, hpub, hhelp, hteam, hadmin, hopen, hpl,
            ensurePopup, createPopup, popupLoadURL, hpw, hcl]

/-- Claim C6 witness: the plugin URL of the spec scenario creates and
shows exactly one popup from the empty navigation state, and a second
request for the same URL while it is open changes nothing. -/
theorem claim_C6_witness :
    newWindowHandler specUrlUtils teamsA "mattermost" navInit c6url1 =
      Except.ok { navInit with
        popupWindow := some { id := 0, url := c6url1, closed := false, shown := false }
        nextPopupId := 1
        createdCount := 1 } ∧
    newWindowHandler specUrlUtils teamsA "mattermost" c6St1 c6url1 = Except.ok c6St1 := by
  constructor
  · have h := (claim_C6_amended.1 specUrlUtils teamsA "mattermost" navInit c6url1
      { protocol := "https:", host := "a.example.com", pathname := "/plugins/x" } srvA
      (by decide) (Or.inr rfl) (by decide) (by decide) (by decide) (by decide)
      (by decide) (by decide) (Or.inl (by decide)) (Or.inl rfl)).1
    exact h
  · exact claim_C6_amended.2.1 specUrlUtils teamsA "mattermost" c6St1 c6url1
      { protocol := "https:", host := "a.example.com", pathname := "/plugins/x" } srvA
      { id := 0, url := c6url1, closed := false, shown := false }
      (by decide) (Or.inr rfl) (by decide) (by decide) (by decide) (by decide)
      (by decide) (by decide) (by decide) (by decide) (by decide)

/-- Claim C6 counterexample: with the popup open at one plugin URL, a
request for a different plugin URL keeps the same popup window (same
identity, no second construction) and merely navigates it, against the
claim that the popup is recreated. -/
theorem claim_C6_counterexample :
    c6St1.popupWindow = some { id := 0, url := c6url1, closed := false, shown := false } ∧
    c6St1.createdCount = 1 ∧
    c6St2.popupWindow = some { id := 0, url := c6url2, closed := false, shown := false } ∧
    c6St2.createdCount = 1 := by decide
